import Mathlib

/-!
Verification of the mpris py3status module (py3status/modules/mpris.py).

The module is shallowly embedded: the D-Bus session bus is modelled as a
`Bus` structure whose property reads may fail (`Except Unit`), mirroring
Python exceptions; dictionaries of track metadata become a record of
optional fields; the `str.format` call becomes an explicit template
interpreter returning `Option` (KeyError / ValueError become `none`).
-/

set_option maxHeartbeats 1000000

deriving instance DecidableEq for Except

/-- Source constant `SERVICE_BUS = 'org.mpris.MediaPlayer2'`. -/
def SERVICE_BUS : String := "org.mpris.MediaPlayer2"

/-- Source constant `UNKNOWN = 'Unknown'`. -/
def UNKNOWN : String := "Unknown"

/-- Source constant `UNKNOWN_TIME = '-:--'`. -/
def UNKNOWN_TIME : String := "-:--"

/-- `listStartsWith s pat`: `pat` is a prefix of `s` (on char lists). -/
def listStartsWith : List Char → List Char → Bool
  | _, [] => true
  | [], _ :: _ => false
  | a :: as, b :: bs => a = b && listStartsWith as bs

/-- Substring containment on char lists, models Python `pat in s`. -/
def listContainsSub (pat : List Char) : List Char → Bool
  | [] => pat.isEmpty
  | c :: rest => listStartsWith (c :: rest) pat || listContainsSub pat rest

/-- Models Python `pat in s` for strings. -/
def strContainsSub (s pat : String) : Bool :=
  listContainsSub pat.data s.data

/-- Models `re.sub(SERVICE_BUS_REGEX, '', name)` where
`SERVICE_BUS_REGEX = '^org\.mpris\.MediaPlayer2.'` (the final `.` is a
regex any-char, which does not match a newline): if the name starts with
the service prefix followed by one non-newline character, drop the prefix
and that character; otherwise the name is unchanged. -/
def stripBusName (nm : String) : String :=
  let cs := nm.data
  let pre := SERVICE_BUS.data
  if listStartsWith cs pre then
    match cs.drop pre.length with
    | [] => nm
    | c :: rest => if c = '\x0a' then nm else String.mk rest
  else nm

/-- Two-digit zero padding, as in `str(timedelta(...))` minute/second fields. -/
def pad2 (n : Nat) : String :=
  if n < 10 then "0" ++ toString n else toString n

/-- Models Python `str(timedelta(seconds=s))` for non-negative `s`:
`h:mm:ss` with unpadded hours below one day, prefixed by `D day(s), `
at one day or more. -/
def timedeltaStr (s : Nat) : String :=
  let d := s / 86400
  let r := s % 86400
  let core := toString (r / 3600) ++ ":" ++ pad2 (r % 3600 / 60) ++ ":" ++ pad2 (r % 60)
  if d = 0 then core
  else if d = 1 then "1 day, " ++ core
  else toString d ++ " days, " ++ core

/-- The stripping step of `_get_time_str`: if the first character is `0`
the first two characters are dropped, and if the new first character is
`0` it is dropped too.  (The inner index of the source can never fail on
the output of `timedeltaStr`, whose minimum length is 7.) -/
def stripLead (time : String) : String :=
  match time.data with
  | c0 :: _ :: rest =>
    if c0 = '0' then
      match rest with
      | c2 :: rest2 => if c2 = '0' then String.mk rest2 else String.mk (c2 :: rest2)
      | [] => String.mk []
    else time
  | _ => time

/-- Source `_get_time_str(microseconds)`: seconds = truncated division
by 10^6, rendered by `str(timedelta(...))`, then leading-zero stripped. -/
def get_time_str (microseconds : Nat) : String :=
  let seconds := microseconds / 1000000
  stripLead (timedeltaStr seconds)

example : get_time_str 45000000 = "0:45" := by decide
example : get_time_str 225000000 = "3:45" := by decide
example : get_time_str 3600000000 = "1:00:00" := by decide
example : get_time_str 86400000000 = "1 day, 0:00:00" := by decide

/-- Track metadata dictionary: the five keys the module reads, plus a
count of entries under any other keys (only `len(metadata)` observes
them). `xesam:artist` is a list of strings in the mpris standard. -/
structure Metadata where
  url : Option String := none
  title : Option String := none
  album : Option String := none
  artist : Option (List String) := none
  length : Option Nat := none
  extra : Nat := 0
deriving DecidableEq

/-- Count of a present optional field, for `len(metadata)`. -/
def optC {α : Type} (o : Option α) : Nat :=
  match o with
  | some _ => 1
  | none => 0

/-- Models Python `len(metadata)`. -/
def Metadata.size (m : Metadata) : Nat :=
  optC m.url + optC m.title + optC m.album + optC m.artist + optC m.length + m.extra

/-- A connected player proxy: each property access re-raises any D-Bus
error, modelled as `Except Unit`. One proxy answers identically on
repeated reads within a cycle. -/
structure Player where
  Identity : Except Unit String
  PlaybackStatus : Except Unit String
  Position : Except Unit Nat
  Metadata : Except Unit Metadata
deriving DecidableEq

/-- The session bus: `ListNames` on the freedesktop service (which may
itself fail), and `get` for connecting to a named service. -/
structure Bus where
  listNames : Except Unit (List String)
  get : String → Except Unit Player

/-- The module's configuration attributes. Physical buttons are
`Option Nat` (`None` in Python disables a binding); colors are optional
overrides. -/
structure Config where
  button_play : Option Nat := some 1
  button_stop : Option Nat := none
  button_next : Option Nat := some 4
  button_previous : Option Nat := some 5
  buttons_control : Option String := none
  buttons_order : String := "previous,play,next"
  color_paused : Option String := none
  color_playing : Option String := none
  color_stopped : Option String := none
  format : String := "{state} {artist} - {title}"
  format_stream : String := "{state} {title}"
  format_none : String := "no player running"
  state_pause : String := "▮▮"
  state_play : String := "▶"
  state_stop : String := "◾"
  state_next : String := "»"
  state_previous : String := "«"
  player_priority : Option String := none

/-- The class defaults from the source. -/
def defaultConfig : Config := {}

/-- The `i3s_config` entries the module reads. -/
structure I3Config where
  color_bad : String
  color_good : String
  color_degraded : String
  interval : Nat

/-- A concrete host palette used in witnesses. -/
def defI3 : I3Config :=
  { color_bad := "#FF0000", color_good := "#00FF00",
    color_degraded := "#FFFF00", interval := 5 }

/-- Source `_get_player(player)`: connect to
`SERVICE_BUS + '.' + player`; any exception is caught and yields `None`. -/
def get_player (bus : Bus) (player : String) : Option Player :=
  match bus.get (SERVICE_BUS ++ "." ++ player) with
  | Except.error _ => none
  | Except.ok p => some p

/-- Source `_get_state(player)`: `'None'` when the connect failed,
otherwise the (possibly failing) `PlaybackStatus` property read. -/
def get_state (bus : Bus) (player : String) : Except Unit String :=
  match get_player bus player with
  | none => Except.ok "None"
  | some p => p.PlaybackStatus

/-- The enumeration loop of `_detect_running_player`: keep bus names
containing `SERVICE_BUS` as a substring and strip the service prefix. -/
def runningPlayers (names : List String) : List String :=
  names.filterMap fun nm =>
    if strContainsSub nm SERVICE_BUS then some (stripBusName nm) else none

/-- Splits on a separator character, keeping empty parts, as Python
`s.split(sep)` does for a one-character separator. -/
def splitCharAux (sep : Char) : List Char → List Char → List String
  | [], acc => [String.mk acc.reverse]
  | c :: rest, acc =>
    if c = sep then String.mk acc.reverse :: splitCharAux sep rest []
    else splitCharAux sep rest (c :: acc)

/-- Models Python `s.split(',')` (`''.split(',') == ['']`, empty parts
kept). -/
def splitChar (sep : Char) (s : String) : List String :=
  splitCharAux sep s.data []

example : splitChar ',' "mpd,vlc,*" = ["mpd", "vlc", "*"] := by decide
example : splitChar ',' "" = [""] := by decide

/-- The prioritisation block of `_detect_running_player`: with no
configured priority the candidates are the running players; otherwise the
priority string is split on commas, each part present among the players is
appended (and removed from the pool, first occurrence), and if `*` occurs
among the parts the remaining pool is appended after the loop. -/
def prioritize : List String → Option String → List String
  | players, none => players
  | players, some pr =>
    let parts := splitChar ',' pr
    let st := parts.foldl
      (fun (st : List String × List String) name =>
        if name ∈ st.1 then (st.1.erase name, st.2 ++ [name]) else st)
      (players, [])
    if "*" ∈ parts then st.2 ++ st.1 else st.2

/-- The fallback after the scan loop: first remembered paused player,
else first remembered stopped player, else `'None'`. -/
def selectFallback (paused stopped : List String) : String :=
  match paused with
  | p :: _ => p
  | [] =>
    match stopped with
    | s :: _ => s
    | [] => "None"

/-- The scan loop of `_detect_running_player`, parametrised by the state
query (in the source, `self._get_state`): return the first `'Playing'`
candidate; append `'Paused'` candidates to one list and all others to a
second; a failing state query propagates. -/
def detect_loop (gs : String → Except Unit String) :
    List String → List String → List String → Except Unit String
  | [], paused, stopped => Except.ok (selectFallback paused stopped)
  | p :: rest, paused, stopped =>
    match gs p with
    | Except.error e => Except.error e
    | Except.ok st =>
      if st = "Playing" then Except.ok p
      else if st = "Paused" then detect_loop gs rest (paused ++ [p]) stopped
      else detect_loop gs rest paused (stopped ++ [p])

/-- Source `_detect_running_player()`. -/
def detect_running_player (cfg : Config) (bus : Bus) : Except Unit String := do
  let names ← bus.listNames
  detect_loop (get_state bus) (prioritize (runningPlayers names) cfg.player_priority) [] []

/-- The seven keyword arguments passed to `format.format(...)`. -/
structure Vals where
  player : String
  state : String
  album : String
  artist : String
  length : String
  time : String
  title : String

/-- Keyword lookup for the template interpreter; an unknown key models a
Python `KeyError`. -/
def lookupVal (v : Vals) (key : String) : Option String :=
  if key = "player" then some v.player
  else if key = "state" then some v.state
  else if key = "album" then some v.album
  else if key = "artist" then some v.artist
  else if key = "length" then some v.length
  else if key = "time" then some v.time
  else if key = "title" then some v.title
  else none

mutual

/-- Interpreter for `str.format` restricted to what the module uses:
plain `\x7bkey\x7d` fields over the seven keywords, doubled-brace
escapes; an unknown key (KeyError) or a stray brace (ValueError) yields
`none`.  Conversion/format-spec syntax inside a field is not used by the
module and is not modelled (such a key is simply unknown). -/
def fmtGo (v : Vals) : List Char → Option String
  | [] => some ""
  | c :: rest =>
    if c = '\x7b' then
      match rest with
      | [] => none
      | c2 :: rest2 =>
        if c2 = '\x7b' then Option.map (fun s => "\x7b" ++ s) (fmtGo v rest2)
        else fmtKeyGo v [] (c2 :: rest2)
    else if c = '\x7d' then
      match rest with
      | [] => none
      | c2 :: rest2 =>
        if c2 = '\x7d' then Option.map (fun s => "\x7d" ++ s) (fmtGo v rest2)
        else none
    else Option.map (fun s => String.singleton c ++ s) (fmtGo v rest)

/-- Accumulates the characters of one replacement-field key. -/
def fmtKeyGo (v : Vals) (acc : List Char) : List Char → Option String
  | [] => none
  | c :: rest =>
    if c = '\x7d' then
      match lookupVal v (String.mk acc.reverse) with
      | none => none
      | some val => Option.map (fun s => val ++ s) (fmtGo v rest)
    else fmtKeyGo v (c :: acc) rest

end

/-- Models `format.format(player=..., state=..., ...)`. -/
def formatTemplate (fmt : String) (v : Vals) : Option String :=
  fmtGo v fmt.data

/-- The values every placeholder falls back to when nothing was read. -/
def fallbackVals : Vals :=
  { player := UNKNOWN, state := UNKNOWN, album := UNKNOWN, artist := UNKNOWN,
    length := UNKNOWN_TIME, time := UNKNOWN_TIME, title := UNKNOWN }

/-- A template that formats without KeyError/ValueError. -/
def templateOk (t : String) : Bool :=
  (formatTemplate t fallbackVals).isSome

example : formatTemplate "{state} {artist} - {title}" fallbackVals
    = some "Unknown Unknown - Unknown" := by decide
example : templateOk "{state} {artist} - {title}" = true := by decide

/-- Python `x or default` for optional strings: the empty string is falsy. -/
def pyOr (o : Option String) (d : String) : String :=
  match o with
  | some s => if s = "" then d else s
  | none => d

/-- Source `_get_state_format(i3s_config)` after the `PlaybackStatus`
property read: classify the raw status into a color and a state glyph. -/
def get_state_format (cfg : Config) (i3 : I3Config) (pbs : String) : String × String :=
  if pbs = "Playing" then (pyOr cfg.color_playing i3.color_good, cfg.state_play)
  else if pbs = "Paused" then (pyOr cfg.color_paused i3.color_degraded, cfg.state_pause)
  else (pyOr cfg.color_stopped i3.color_bad, cfg.state_stop)

/-- `cs` is a match of regex `\....`: a literal dot followed by three
non-newline characters. -/
def extMatch : List Char → Bool
  | ['.', a, b, c] => a ≠ '\x0a' && b ≠ '\x0a' && c ≠ '\x0a'
  | _ => false

/-- Models `re.sub(r'\....$', '', title)`: drop a trailing dot plus three
non-newline characters, where `$` also matches just before a final
newline. -/
def stripExt (s : String) : String :=
  let cs := s.data
  let n := cs.length
  if extMatch (cs.drop (n - 4)) && n ≥ 4 then String.mk (cs.take (n - 4))
  else if cs.getLast? = some '\x0a' && n ≥ 5
          && extMatch ((cs.take (n - 1)).drop (n - 5)) then
    String.mk (cs.take (n - 5) ++ ['\x0a'])
  else s

example : stripExt "song.mp3" = "song" := by decide
example : stripExt "Unknown" = "Unknown" := by decide

/-- The local variables of `_get_text` at the end of its try/except
block. -/
structure TextState where
  is_stream : Bool
  player : String
  state : String
  artist : String
  album : String
  length : String
  time : String
  title : String
  color : String

/-- The try/except block of `_get_text`: the placeholders start at their
fallbacks; each step reads a property and updates the locals; the first
raised exception jumps to the handler, which only sets
`color = i3s_config['color_bad']` (in the source `color` is unbound until
assigned, and every completed path assigns it, so starting it at the
except-branch value is observationally equal).  Exceptions inside the
metadata block are `'file://' not in None` (TypeError, absent url) and
`metadata.get('xesam:artist')[0]` (IndexError, empty artist list). -/
def baseState (i3 : I3Config) : TextState :=
  { is_stream := false, player := UNKNOWN, state := UNKNOWN,
    artist := UNKNOWN, album := UNKNOWN, length := UNKNOWN_TIME,
    time := UNKNOWN_TIME, title := UNKNOWN, color := i3.color_bad }

def tryBlock (cfg : Config) (i3 : I3Config) (p : Player) : TextState :=
  let base : TextState := baseState i3
  match p.Identity with
  | Except.error _ => base
  | Except.ok ident =>
    let s1 := { base with player := ident }
    match p.PlaybackStatus with
    | Except.error _ => s1
    | Except.ok pbs =>
      let cs := get_state_format cfg i3 pbs
      let s2 := { s1 with color := cs.1, state := cs.2 }
      match p.Position with
      | Except.error _ => { s2 with color := i3.color_bad }
      | Except.ok posn =>
        let s3 := { s2 with time := get_time_str posn }
        match p.Metadata with
        | Except.error _ => { s3 with color := i3.color_bad }
        | Except.ok md =>
          if md.size = 0 then { s3 with is_stream := true }
          else
            match md.url with
            | none => { s3 with color := i3.color_bad }
            | some url =>
              let s4 := { s3 with is_stream := !(strContainsSub url "file://"),
                                  title := pyOr md.title UNKNOWN,
                                  album := pyOr md.album UNKNOWN }
              match md.artist with
              | none =>
                let s5 := { s4 with is_stream := true }
                match md.length with
                | none => s5
                | some len => { s5 with length := get_time_str len }
              | some [] => { s4 with color := i3.color_bad }
              | some (a :: _) =>
                let s5 := { s4 with artist := a }
                match md.length with
                | none => s5
                | some len => { s5 with length := get_time_str len }

/-- Whether the try block of `_get_text` takes the except branch. -/
def tryFails (p : Player) : Bool :=
  match p.Identity with
  | Except.error _ => true
  | Except.ok _ =>
    match p.PlaybackStatus with
    | Except.error _ => true
    | Except.ok _ =>
      match p.Position with
      | Except.error _ => true
      | Except.ok _ =>
        match p.Metadata with
        | Except.error _ => true
        | Except.ok md =>
          if md.size = 0 then false
          else
            match md.url with
            | none => true
            | some _ =>
              match md.artist with
              | some [] => true
              | _ => false

/-- The template `_get_text` ends up substituting into. -/
def chosenFormat (cfg : Config) (i3 : I3Config) (p : Player) : String :=
  if (tryBlock cfg i3 p).is_stream then cfg.format_stream else cfg.format

/-- Source `_get_text(i3s_config)`: run the try/except block, strip a
trailing extension from the title in stream mode, then substitute into
the chosen template.  `none` models an exception escaping `_get_text`
itself (a KeyError/ValueError from `format.format`, outside the try). -/
def getVals (cfg : Config) (i3 : I3Config) (p : Player) : Vals :=
  let s := tryBlock cfg i3 p
  { player := s.player, state := s.state, album := s.album,
    artist := s.artist, length := s.length, time := s.time,
    title := if s.is_stream then stripExt s.title else s.title }

def get_text (cfg : Config) (i3 : I3Config) (p : Player) : Option (String × String) :=
  match formatTemplate (chosenFormat cfg i3 p) (getVals cfg i3 p) with
  | none => none
  | some text => some (text, (tryBlock cfg i3 p).color)

/-- One element of the composite response. -/
structure Entry where
  full_text : String
  color : String
  index : String
deriving DecidableEq

/-- The payload `mpris()` returns. -/
structure Response where
  cached_until : Nat
  composite : List Entry
deriving DecidableEq

/-- Source `_get_response_buttons()`: reads `PlaybackStatus` (which may
raise), picks the play/pause glyph, then appends one entry per recognised
name in `buttons_order` (split on commas), in configured order. -/
def get_response_buttons (cfg : Config) (p : Player) : Except Unit (List Entry) :=
  match p.PlaybackStatus with
  | Except.error e => Except.error e
  | Except.ok pbs =>
    let state := if pbs = "Playing" then cfg.state_pause else cfg.state_play
    Except.ok ((splitChar ',' cfg.buttons_order).foldl
      (fun response button =>
        if button = "play" then
          response ++ [{ full_text := " " ++ state ++ " ", color := "#CCCCCC", index := "play" }]
        else if button = "stop" then
          response ++ [{ full_text := " " ++ cfg.state_stop ++ " ", color := "#CCCCCC", index := "stop" }]
        else if button = "next" then
          response ++ [{ full_text := " " ++ cfg.state_next ++ " ", color := "#CCCCCC", index := "next" }]
        else if button = "previous" then
          response ++ [{ full_text := " " ++ cfg.state_previous ++ " ", color := "#CCCCCC", index := "previous" }]
        else response)
      [])

/-- Source `mpris(i3s_output_list, i3s_config)`.  The first step of the
source is `cached_until = time() + i3s_config['interval']`; the global
name `time` is resolved by the Python runtime, so it is passed here as
`timeRes` — with the module as written it is `timeUndefined` below,
because `time` is never imported and the lookup raises `NameError`.
Failures anywhere (`ListNames`, a propagating property read, a template
error) escape `mpris` as `Except.error`. -/
def mpris (timeRes : Except Unit Nat) (cfg : Config) (bus : Bus)
    (i3 : I3Config) : Except Unit Response :=
  match timeRes with
  | Except.error e => Except.error e
  | Except.ok t =>
    let cached_until := t + i3.interval
    match detect_running_player cfg bus with
    | Except.error e => Except.error e
    | Except.ok running_player =>
      match get_player bus running_player with
      | none =>
        Except.ok { cached_until := cached_until,
                    composite := [{ full_text := cfg.format_none,
                                    color := i3.color_bad, index := "text" }] }
      | some p =>
        match get_text cfg i3 p with
        | none => Except.error ()
        | some tc =>
          match get_response_buttons cfg p with
          | Except.error e => Except.error e
          | Except.ok response_buttons =>
            let buttons_control :=
              if response_buttons = [] then none else cfg.buttons_control
            let response_text : Entry :=
              { full_text := tc.1, color := tc.2, index := "text" }
            Except.ok { cached_until := cached_until,
                        composite :=
                          if buttons_control = some "left" then
                            response_buttons ++ [response_text]
                          else if buttons_control = some "right" then
                            [response_text] ++ response_buttons
                          else [response_text] }

/-- The evaluation of the global name `time` in the module as shipped:
`time` is never imported (the module has no `import time` and no
`from time import time`), so the lookup raises `NameError`. -/
def timeUndefined : Except Unit Nat := Except.error ()

/-- `mpris()` exactly as the source runs it. -/
def mpris_actual (cfg : Config) (bus : Bus) (i3 : I3Config) : Except Unit Response :=
  mpris timeUndefined cfg bus i3

/-- The four player commands `on_click` can dispatch. -/
inductive Command
  | playPause
  | stopCmd
  | nextCmd
  | prevCmd
deriving DecidableEq

/-- Source `on_click(...)`, as the trace of commands it invokes on
`self._player` (each branch invokes at most one).  The dispatch itself is
not wrapped in any try/except in the source, so an invocation that fails
raises out of `on_click`; the trace records which invocation is
attempted. -/
def on_click (cfg : Config) (index : String) (button : Nat) : List Command :=
  if index = "text" then
    if cfg.button_play = some button then [Command.playPause]
    else if cfg.button_stop = some button then [Command.stopCmd]
    else if cfg.button_next = some button then [Command.nextCmd]
    else if cfg.button_previous = some button then [Command.prevCmd]
    else []
  else
    if button = 1 then
      if index = "play" then [Command.playPause]
      else if index = "stop" then [Command.stopCmd]
      else if index = "next" then [Command.nextCmd]
      else if index = "previous" then [Command.prevCmd]
      else []
    else []

/-- The configured physical-button binding of each command. -/
def bindingOf (cfg : Config) : Command → Option Nat
  | Command.playPause => cfg.button_play
  | Command.stopCmd => cfg.button_stop
  | Command.nextCmd => cfg.button_next
  | Command.prevCmd => cfg.button_previous

/-- The command a control glyph's logical index stands for. -/
def glyphCommand (index : String) : Option Command :=
  if index = "play" then some Command.playPause
  else if index = "stop" then some Command.stopCmd
  else if index = "next" then some Command.nextCmd
  else if index = "previous" then some Command.prevCmd
  else none

/-- Claim-side (C1): the first candidate found `Playing`; else the first
found `Paused`; else the first found in neither state (Stopped/Unknown);
else the `'None'` sentinel. -/
def claimSelect (st : String → String) (cands : List String) : String :=
  match cands.find? (fun p => st p == "Playing") with
  | some p => p
  | none =>
    match cands.find? (fun p => st p == "Paused") with
    | some p => p
    | none =>
      match cands.find? (fun p => !(st p == "Playing") && !(st p == "Paused")) with
      | some p => p
      | none => "None"

/-- Claim-side (C2, as stated): walk the priority list in order; a name
present in the pool is appended and removed from the pool; the wildcard
token appends all names still remaining in the pool, in their original
enumeration order, at the wildcard's position. -/
def claimPrioritize : List String → List String → List String
  | _, [] => []
  | pool, name :: rest =>
    if name = "*" then pool ++ claimPrioritize [] rest
    else if name ∈ pool then name :: claimPrioritize (pool.erase name) rest
    else claimPrioritize pool rest

/-- The named-players pass of the priority list: the selected order and
the remaining pool. -/
def claimNamed : List String → List String → List String × List String
  | pool, [] => ([], pool)
  | pool, name :: rest =>
    if name ∈ pool then
      let pr := claimNamed (pool.erase name) rest
      (name :: pr.1, pr.2)
    else claimNamed pool rest

/-- Claim-side (C2, amended): running players named in the list, in list
order, each removed from the pool; when the list contains `*`, the names
still remaining in the pool are appended at the END of the candidate
order, in their original enumeration order, regardless of the wildcard's
position. -/
def claimPrioritizeEnd (pool parts : List String) : List String :=
  if "*" ∈ parts then (claimNamed pool parts).1 ++ (claimNamed pool parts).2
  else (claimNamed pool parts).1

/-- The url field indicates a local file path: present and containing
`file://`. -/
def urlIndicatesFile (url : Option String) : Bool :=
  match url with
  | some u => strContainsSub u "file://"
  | none => false

/-- Claim-side (C4, as stated): stream mode iff the metadata is entirely
empty, or the artist field is absent, or the url field does not indicate
a local file path. -/
def claimIsStream (md : Metadata) : Bool :=
  md.size = 0 || md.artist.isNone || !(urlIndicatesFile md.url)

/-- Code-side stream condition when every player query succeeds: empty
metadata is a stream; with a present url, stream iff the url lacks
`file://` or the artist key is absent; with an absent url (and non-empty
metadata) the TypeError path keeps track mode. -/
def codeStreamCond (md : Metadata) : Bool :=
  if md.size = 0 then true
  else
    match md.url with
    | none => false
    | some u => !(strContainsSub u "file://") || md.artist.isNone

/-- Claim-side (C6, as stated): total hours, minutes, seconds; a leading
zero hour component is dropped together with its colon, and a remaining
single leading zero is dropped too. -/
def claimTimeStr (micro : Nat) : String :=
  let s := micro / 1000000
  let h := s / 3600
  let rest := pad2 (s % 3600 / 60) ++ ":" ++ pad2 (s % 60)
  if h = 0 then
    match rest.data with
    | c :: t => if c = '0' then String.mk t else rest
    | [] => rest
  else toString h ++ ":" ++ rest

lemma filter_head_eq_find {α : Type} (p : α → Bool) :
    ∀ l : List α, (l.filter p).head? = l.find? p
  | [] => rfl
  | a :: l => by
    by_cases h : p a
    · simp [List.filter_cons, List.find?_cons, h]
    · simp [List.filter_cons, List.find?_cons, h, filter_head_eq_find p l]

lemma detect_loop_ok (st : String → String) :
    ∀ (cands paused stopped : List String),
    detect_loop (fun p => Except.ok (st p)) cands paused stopped =
    Except.ok
      (match cands.find? (fun p => st p == "Playing") with
       | some p => p
       | none =>
         selectFallback (paused ++ cands.filter (fun p => st p == "Paused"))
           (stopped ++ cands.filter (fun p => !(st p == "Playing") && !(st p == "Paused"))))
  | [], paused, stopped => by simp [detect_loop]
  | p :: rest, paused, stopped => by
    by_cases h1 : st p = "Playing"
    · simp [detect_loop, h1, List.find?_cons]
    · by_cases h2 : st p = "Paused"
      · have ih := detect_loop_ok st rest (paused ++ [p]) stopped
        simp [detect_loop, h1, h2, List.find?_cons, List.filter_cons, ih]
      · have ih := detect_loop_ok st rest paused (stopped ++ [p])
        simp [detect_loop, h1, h2, List.find?_cons, List.filter_cons, ih]

/-- C1: for every candidate order produced by the resolver and every
assignment of live playback states, the scan loop selects the first
candidate found `Playing`; failing that the first found `Paused`; failing
that the first found in any other state (Stopped/Unknown); and otherwise
the `'None'` sentinel.  In particular a later candidate that is `Playing`
beats an earlier one that is merely `Paused` or `Stopped`. -/
theorem c1_playback_state_overrides_priority (st : String → String) (cands : List String) :
    detect_loop (fun p => Except.ok (st p)) cands [] [] =
      Except.ok (claimSelect st cands) := by
  rw [detect_loop_ok st cands [] []]
  unfold claimSelect
  cases hp : cands.find? (fun p => st p == "Playing") with
  | some p => simp
  | none =>
    simp only [List.nil_append]
    cases hq : cands.find? (fun p => st p == "Paused") with
    | some q =>
      have hh := filter_head_eq_find (fun p => st p == "Paused") cands
      rw [hq] at hh
      cases hf : cands.filter (fun p => st p == "Paused") with
      | nil => rw [hf] at hh; simp at hh
      | cons a l => rw [hf] at hh; simp at hh; simp [selectFallback, hh]
    | none =>
      have hh := filter_head_eq_find (fun p => st p == "Paused") cands
      rw [hq] at hh
      have hnil : cands.filter (fun p => st p == "Paused") = [] :=
        List.head?_eq_none_iff.mp hh
      rw [hnil]
      cases hr : cands.find? (fun p => !(st p == "Playing") && !(st p == "Paused")) with
      | some r =>
        have hh2 := filter_head_eq_find (fun p => !(st p == "Playing") && !(st p == "Paused")) cands
        rw [hr] at hh2
        cases hf2 : cands.filter (fun p => !(st p == "Playing") && !(st p == "Paused")) with
        | nil => rw [hf2] at hh2; simp at hh2
        | cons a l => rw [hf2] at hh2; simp at hh2; simp [selectFallback, hh2]
      | none =>
        have hh2 := filter_head_eq_find (fun p => !(st p == "Playing") && !(st p == "Paused")) cands
        rw [hr] at hh2
        have hnil2 : cands.filter (fun p => !(st p == "Playing") && !(st p == "Paused")) = [] :=
          List.head?_eq_none_iff.mp hh2
        rw [hnil2]
        simp [selectFallback]

/-- C2, counterexample: with running players enumerated `[b, a]` and
priority list `*,a`, the code appends the wildcard remainder at the END
(yielding `[a, b]`), whereas the claim places it at the wildcard's
position (yielding `[b, a]`). -/
theorem c2_counterexample :
    prioritize ["b", "a"] (some "*,a") = ["a", "b"] ∧
    claimPrioritize ["b", "a"] (splitChar ',' "*,a") = ["b", "a"] ∧
    prioritize ["b", "a"] (some "*,a") ≠ claimPrioritize ["b", "a"] (splitChar ',' "*,a") := by
  refine ⟨by decide, by decide, by decide⟩

lemma prioritize_foldl : ∀ (parts pool acc : List String),
    parts.foldl
      (fun (st : List String × List String) name =>
        if name ∈ st.1 then (st.1.erase name, st.2 ++ [name]) else st)
      (pool, acc) =
    ((claimNamed pool parts).2, acc ++ (claimNamed pool parts).1)
  | [], pool, acc => by simp [claimNamed]
  | name :: rest, pool, acc => by
    by_cases h : name ∈ pool
    · simp only [List.foldl_cons, claimNamed, h, if_true,
        prioritize_foldl rest (pool.erase name) (acc ++ [name])]
      simp
    · simp only [List.foldl_cons, claimNamed, h, if_false,
        prioritize_foldl rest pool acc]

/-- C2, amended: when a priority list is configured, the candidate order
is exactly the running players named in the list, in list order, each
removed from the remaining pool as it is appended; and if the list
contains the wildcard token `*`, all names still remaining in the pool
are appended, in their original enumeration order, at the END of the
candidate order (not at the wildcard's position). -/
theorem c2_amended (players : List String) (pr : String) :
    prioritize players (some pr) = claimPrioritizeEnd players (splitChar ',' pr) := by
  simp only [prioritize]
  rw [prioritize_foldl]
  unfold claimPrioritizeEnd
  by_cases h : "*" ∈ splitChar ',' pr <;> simp [h]

/-- C3: the refresh entry point never completes.  Its first statement is
`cached_until = time() + i3s_config['interval']`, and the module never
imports `time` (its only imports are `timedelta`, `re` and `SessionBus`),
so every invocation of `mpris()` raises `NameError` before any payload is
built — contradicting the claim that a refresh always runs to completion
and returns a payload.  (Independently, `on_click` wraps no dispatch in a
try/except, so a failing command against a vanished player propagates
rather than being swallowed; see `on_click` above.) -/
theorem c3_refresh_always_raises (cfg : Config) (bus : Bus) (i3 : I3Config) :
    mpris_actual cfg bus i3 = Except.error () := rfl

lemma claimNamed_nil_pool : ∀ parts : List String, claimNamed [] parts = ([], [])
  | [] => rfl
  | _ :: rest => by simp [claimNamed, claimNamed_nil_pool rest]

lemma claimNamed_disjoint : ∀ (parts pool : List String),
    (∀ x ∈ parts, x ∉ pool) → claimNamed pool parts = ([], pool)
  | [], pool, _ => rfl
  | name :: rest, pool, h => by
    have hn : name ∉ pool := h name (by simp)
    simp only [claimNamed, hn, if_false]
    exact claimNamed_disjoint rest pool fun x hx => h x (by simp [hx])

lemma prioritize_nil_players (prio : Option String) : prioritize [] prio = [] := by
  cases prio with
  | none => rfl
  | some pr =>
    have := c2_amended [] pr
    rw [this]
    unfold claimPrioritizeEnd
    rw [claimNamed_nil_pool]
    by_cases h : "*" ∈ splitChar ',' pr <;> simp [h]

/-- C8: if no players are running, or the configured priority list has no
wildcard and names only players that are not running, selection yields
the `'None'` sentinel — whatever the states of any other running players
(the bus's `get` map, and hence every player's state, is universally
quantified here, so this covers an unlisted player that is `Playing`). -/
theorem c8_unlisted_players_excluded (cfg : Config) (bus : Bus) (names : List String)
    (pr : String) (hnames : bus.listNames = Except.ok names) :
    (runningPlayers names = [] → detect_running_player cfg bus = Except.ok "None") ∧
    (cfg.player_priority = some pr →
     "*" ∉ splitChar ',' pr →
     (∀ x ∈ splitChar ',' pr, x ∉ runningPlayers names) →
     detect_running_player cfg bus = Except.ok "None") := by
  constructor
  · intro hrun
    unfold detect_running_player
    rw [hnames]
    simp only [Except.bind, bind]
    rw [hrun, prioritize_nil_players]
    rfl
  · intro hprio hstar hdisj
    unfold detect_running_player
    rw [hnames]
    simp only [Except.bind, bind]
    rw [hprio, c2_amended]
    unfold claimPrioritizeEnd
    rw [claimNamed_disjoint _ _ fun x hx => hdisj x hx]
    simp only [hstar, if_false]
    rfl

/-- A minimal running, playing player proxy for witnesses. -/
def playingPlayer : Player :=
  { Identity := Except.ok "mpd", PlaybackStatus := Except.ok "Playing",
    Position := Except.ok 0, Metadata := Except.ok {} }

/-- A bus on which only `org.mpris.MediaPlayer2.mpd` is registered, and
mpd is `Playing`. -/
def busMpd : Bus :=
  { listNames := Except.ok ["org.mpris.MediaPlayer2.mpd"],
    get := fun s =>
      if s = "org.mpris.MediaPlayer2.mpd" then Except.ok playingPlayer
      else Except.error () }

theorem c8_witness :
    detect_running_player { defaultConfig with player_priority := some "vlc" } busMpd =
      Except.ok "None" :=
  (c8_unlisted_players_excluded { defaultConfig with player_priority := some "vlc" }
      busMpd ["org.mpris.MediaPlayer2.mpd"] "vlc" rfl).2 rfl (by decide) (by decide)

/-- A player whose connection succeeded but whose `PlaybackStatus`
property read raises (the agent vanished between connect and read). -/
def badReadPlayer : Player :=
  { Identity := Except.ok "a", PlaybackStatus := Except.error (),
    Position := Except.ok 0, Metadata := Except.ok {} }

/-- A bus with players `a` (connected, status read fails) and `b`
(`Playing`). -/
def busBadRead : Bus :=
  { listNames := Except.ok ["org.mpris.MediaPlayer2.a", "org.mpris.MediaPlayer2.b"],
    get := fun s =>
      if s = "org.mpris.MediaPlayer2.a" then Except.ok badReadPlayer
      else if s = "org.mpris.MediaPlayer2.b" then Except.ok playingPlayer
      else Except.error () }

/-- C7, counterexample: candidate `a` connects but its status read
errors; the claim says `a` is ranked Stopped/Unknown and the scan goes on
to select the `Playing` candidate `b`, but the code propagates the error
and the refresh aborts with no selection at all. -/
theorem c7_counterexample :
    detect_running_player defaultConfig busBadRead = Except.error () ∧
    claimSelect (fun p => if p = "b" then "Playing" else "Unknown") ["a", "b"] = "b" := by
  refine ⟨by decide, by decide⟩

/-- C7, amended: a candidate whose CONNECTION fails is ranked in the
Stopped/Unknown bucket and the scan continues with the remaining
candidates; but a candidate that connects and whose status READ fails
makes the whole scan (and hence the refresh cycle) abort with that
error. -/
theorem c7_amended (bus : Bus) (p : String) (cands paused stopped : List String) :
    (bus.get (SERVICE_BUS ++ "." ++ p) = Except.error () →
      detect_loop (get_state bus) (p :: cands) paused stopped =
        detect_loop (get_state bus) cands paused (stopped ++ [p])) ∧
    (∀ pl, bus.get (SERVICE_BUS ++ "." ++ p) = Except.ok pl →
      pl.PlaybackStatus = Except.error () →
      detect_loop (get_state bus) (p :: cands) paused stopped = Except.error ()) := by
  constructor
  · intro h
    simp [detect_loop, get_state, get_player, h]
  · intro pl h hpb
    simp [detect_loop, get_state, get_player, h, hpb]

theorem c7_witness :
    (detect_loop (get_state busMpd) ("vlc" :: ["mpd"]) [] [] =
       detect_loop (get_state busMpd) ["mpd"] [] ([] ++ ["vlc"])) ∧
    detect_loop (get_state busBadRead) ("a" :: ["b"]) [] [] = Except.error () :=
  ⟨(c7_amended busMpd "vlc" ["mpd"] [] []).1 (by decide),
   (c7_amended busBadRead "a" ["b"] [] []).2 badReadPlayer (by decide) rfl⟩

lemma str_data_append (a b : String) : (a ++ b).data = a.data ++ b.data := rfl

lemma str_mk_data (s : String) : String.mk s.data = s := rfl

lemma str_append_assoc (a b c : String) : a ++ b ++ c = a ++ (b ++ c) :=
  congrArg String.mk (List.append_assoc a.data b.data c.data)

lemma stripLead_of_ne (t : String) (c : Char) (tail : List Char)
    (hd : t.data = c :: tail) (hc : c ≠ '0') : stripLead t = t := by
  unfold stripLead
  rw [hd]
  cases tail with
  | nil => rfl
  | cons c1 cs => simp [hc]

/-- The second stripping step, on the characters after a dropped `0:`. -/
def stripTail : List Char → String
  | c2 :: rest2 => if c2 = '0' then String.mk rest2 else String.mk (c2 :: rest2)
  | [] => String.mk []

lemma stripLead_of_zero (t : String) (c1 : Char) (cs : List Char)
    (hd : t.data = '0' :: c1 :: cs) :
    stripLead t = stripTail cs := by
  obtain ⟨data⟩ := t
  simp only at hd
  subst hd
  unfold stripLead stripTail
  simp only []
  cases cs <;> simp

/-- C6, counterexample: at exactly one day the Python `str(timedelta)`
rendering is `1 day, 0:00:00`, not an hours:minutes:seconds form, so the
claimed conversion (which would give `24:00:00`) does not hold for every
non-negative microsecond count. -/
theorem c6_counterexample :
    get_time_str 86400000000 = "1 day, 0:00:00" ∧
    claimTimeStr 86400000000 = "24:00:00" ∧
    get_time_str 86400000000 ≠ claimTimeStr 86400000000 := by
  refine ⟨by decide, by decide, by decide⟩

lemma repr_head_ne_zero (h : Nat) (h1 : 1 ≤ h) (h2 : h ≤ 23) :
    ∃ c cs, (toString h).data = c :: cs ∧ c ≠ '0' := by
  interval_cases h <;> exact ⟨_, _, rfl, by decide⟩

/-- C6, amended: for every microsecond count BELOW ONE DAY, the rendered
played/length time is the hours:minutes:seconds form with a leading `0:`
hour component dropped and a then-leading single zero dropped too; so 45
seconds renders as `0:45`, 3 minutes 45 seconds as `3:45`, and durations
of one hour or more (below a day) keep their hour component.  At one day
or more the underlying rendering switches to `D day(s), h:mm:ss` and the
claimed form no longer applies (see the counterexample). -/
theorem c6_amended :
    (∀ micro : Nat, micro < 86400000000 →
        get_time_str micro = claimTimeStr micro) ∧
    get_time_str 45000000 = "0:45" ∧
    get_time_str 225000000 = "3:45" ∧
    get_time_str 3600000000 = "1:00:00" := by
  refine ⟨?_, by decide, by decide, by decide⟩
  intro micro hm
  have hs : micro / 1000000 < 86400 :=
    (Nat.div_lt_iff_lt_mul (by norm_num)).mpr (by omega)
  simp only [get_time_str, claimTimeStr, timedeltaStr,
    Nat.div_eq_of_lt hs, Nat.mod_eq_of_lt hs, if_pos rfl, if_true]
  set s := micro / 1000000 with hsdef
  by_cases hh : s / 3600 = 0
  · rw [hh, if_pos rfl]
    have h0 : (toString (0 : Nat)) = "0" := rfl
    rw [h0]
    have hd : ("0" ++ ":" ++ pad2 (s % 3600 / 60) ++ ":" ++ pad2 (s % 60)).data =
        '0' :: ':' :: (pad2 (s % 3600 / 60) ++ ":" ++ pad2 (s % 60)).data := by
      simp [str_data_append, List.append_assoc]
    rw [stripLead_of_zero _ _ _ hd]
    cases hcs : (pad2 (s % 3600 / 60) ++ ":" ++ pad2 (s % 60)).data with
    | nil =>
      simp only [stripTail]
      conv_rhs => rw [← str_mk_data (pad2 (s % 3600 / 60) ++ ":" ++ pad2 (s % 60)), hcs]
    | cons c tail =>
      by_cases hc : c = '0'
      · simp [stripTail, hc]
      · simp only [stripTail, if_neg hc]
        conv_rhs => rw [← str_mk_data (pad2 (s % 3600 / 60) ++ ":" ++ pad2 (s % 60)), hcs]
  · rw [if_neg hh]
    have h24 : s / 3600 < 24 := (Nat.div_lt_iff_lt_mul (by norm_num)).mpr (by omega)
    obtain ⟨c, cs, hdat, hc⟩ := repr_head_ne_zero (s / 3600) (by omega) (by omega)
    have hd : (toString (s / 3600) ++ ":" ++ pad2 (s % 3600 / 60) ++ ":" ++ pad2 (s % 60)).data =
        c :: (cs ++ (":" ++ pad2 (s % 3600 / 60) ++ ":" ++ pad2 (s % 60)).data) := by
      simp [str_data_append, hdat, List.append_assoc]
    rw [stripLead_of_ne _ _ _ hd hc]
    simp [str_append_assoc]

theorem c6_witness : get_time_str 5025000000 = claimTimeStr 5025000000 :=
  c6_amended.1 5025000000 (by decide)

/-- Metadata with populated fields and a present artist but no url. -/
def c4Metadata : Metadata :=
  { title := some "T", album := some "A", artist := some ["Art"] }

/-- A fully-answering player whose current track is `c4Metadata`. -/
def c4Player : Player :=
  { Identity := Except.ok "P", PlaybackStatus := Except.ok "Playing",
    Position := Except.ok 0, Metadata := Except.ok c4Metadata }

/-- C4, counterexample: non-empty metadata whose url field is absent (so
it does not indicate a local file path) — the claim requires the
stream-mode template, but `'file://' not in None` raises TypeError inside
the try block and the code keeps `is_stream = False`, selecting the
TRACK-mode template. -/
theorem c4_counterexample :
    claimIsStream c4Metadata = true ∧
    chosenFormat defaultConfig defI3 c4Player = defaultConfig.format ∧
    defaultConfig.format ≠ defaultConfig.format_stream := by
  refine ⟨by decide, by decide, by decide⟩

/-- C4, amended: when all four player queries succeed, the stream-mode
template is selected exactly when the metadata is entirely empty, or the
url field is PRESENT and either lacks the substring `file://` or the
artist field is absent; when the url field is absent from non-empty
metadata the TypeError fallback keeps the track-mode template (with the
"bad" color), even if the artist field is also absent. -/
theorem c4_amended (cfg : Config) (i3 : I3Config) (p : Player) (md : Metadata)
    (ident pbs : String) (posn : Nat)
    (h1 : p.Identity = Except.ok ident) (h2 : p.PlaybackStatus = Except.ok pbs)
    (h3 : p.Position = Except.ok posn) (h4 : p.Metadata = Except.ok md) :
    (tryBlock cfg i3 p).is_stream = codeStreamCond md ∧
    chosenFormat cfg i3 p =
      (if codeStreamCond md then cfg.format_stream else cfg.format) := by
  have hstream : (tryBlock cfg i3 p).is_stream = codeStreamCond md := by
    cases p with
    | mk pid ppb ppos pmd =>
      simp only at h1 h2 h3 h4
      subst h1; subst h2; subst h3; subst h4
      unfold tryBlock codeStreamCond
      by_cases hsz : md.size = 0
      · simp [hsz]
      · simp only [hsz, if_neg hsz]
        cases hu : md.url with
        | none => simp [baseState]
        | some u =>
          cases ha : md.artist with
          | none => cases hl : md.length <;> simp [hu, ha, hl]
          | some l =>
            cases l with
            | nil => simp [hu, ha]
            | cons a rest => cases hl : md.length <;> simp [hu, ha, hl]
  refine ⟨hstream, ?_⟩
  unfold chosenFormat
  rw [hstream]

/-- Non-empty metadata with a non-file url (a stream). -/
def c4wMetadata : Metadata := { url := some "http://radio", title := some "T" }

/-- A fully-answering player whose current track is `c4wMetadata`. -/
def c4wPlayer : Player :=
  { Identity := Except.ok "P", PlaybackStatus := Except.ok "Playing",
    Position := Except.ok 0, Metadata := Except.ok c4wMetadata }

theorem c4_witness :
    (tryBlock defaultConfig defI3 c4wPlayer).is_stream = codeStreamCond c4wMetadata ∧
    chosenFormat defaultConfig defI3 c4wPlayer =
      (if codeStreamCond c4wMetadata then defaultConfig.format_stream
       else defaultConfig.format) :=
  c4_amended defaultConfig defI3 c4wPlayer c4wMetadata "P" "Playing" 0 rfl rfl rfl rfl

lemma c9_text_mem (cfg : Config) (button : Nat) :
    ∀ c, c ∈ on_click cfg "text" button → bindingOf cfg c = some button := by
  intro c hc
  unfold on_click at hc
  simp only [eq_self_iff_true, if_true] at hc
  split_ifs at hc with hp hs hn hpr
  · simp at hc; subst hc; simpa [bindingOf] using hp
  · simp at hc; subst hc; simpa [bindingOf] using hs
  · simp at hc; subst hc; simpa [bindingOf] using hn
  · simp at hc; subst hc; simpa [bindingOf] using hpr
  · simp at hc

/-- C9: a click whose logical index is a control glyph dispatches that
glyph's command exactly once when the physical button is 1 and nothing
otherwise; a click on the main text region only ever dispatches a command
whose configured physical button equals the event's button (so a binding
of `None` never matches), and when exactly one command is so configured,
exactly that command is dispatched once. -/
theorem c9_click_routing (cfg : Config) (index : String) (button : Nat) :
    (∀ c, glyphCommand index = some c →
      (button = 1 → on_click cfg index button = [c]) ∧
      (button ≠ 1 → on_click cfg index button = [])) ∧
    (∀ c, c ∈ on_click cfg "text" button → bindingOf cfg c = some button) ∧
    (∀ c, bindingOf cfg c = some button →
      (∀ c2, bindingOf cfg c2 = some button → c2 = c) →
      on_click cfg "text" button = [c]) ∧
    (∀ c, bindingOf cfg c = none → c ∉ on_click cfg "text" button) := by
  refine ⟨?_, c9_text_mem cfg button, ?_, ?_⟩
  · intro c hc
    have hne : index ≠ "text" := by
      intro h; subst h; simp [glyphCommand] at hc
    constructor
    · intro hb
      subst hb
      unfold on_click
      unfold glyphCommand at hc
      simp only [if_neg hne, if_pos rfl]
      split_ifs at hc ⊢ <;> simp_all
    · intro hb
      unfold on_click
      simp [hne, hb]
  · intro c hbind huniq
    unfold on_click
    simp only [eq_self_iff_true, if_true]
    cases c with
    | playPause =>
      simp only [bindingOf] at hbind
      simp [hbind]
    | stopCmd =>
      simp only [bindingOf] at hbind
      by_cases hp : cfg.button_play = some button
      · exact absurd (huniq Command.playPause hp) (by decide)
      · simp [hp, hbind]
    | nextCmd =>
      simp only [bindingOf] at hbind
      by_cases hp : cfg.button_play = some button
      · exact absurd (huniq Command.playPause hp) (by decide)
      · by_cases hs : cfg.button_stop = some button
        · exact absurd (huniq Command.stopCmd hs) (by decide)
        · simp [hp, hs, hbind]
    | prevCmd =>
      simp only [bindingOf] at hbind
      by_cases hp : cfg.button_play = some button
      · exact absurd (huniq Command.playPause hp) (by decide)
      · by_cases hs : cfg.button_stop = some button
        · exact absurd (huniq Command.stopCmd hs) (by decide)
        · by_cases hn : cfg.button_next = some button
          · exact absurd (huniq Command.nextCmd hn) (by decide)
          · simp [hp, hs, hn, hbind]
  · intro c h0 hmem
    have := c9_text_mem cfg button c hmem
    rw [h0] at this
    cases this

theorem c9_witness :
    on_click defaultConfig "next" 1 = [Command.nextCmd] ∧
    on_click defaultConfig "next" 2 = [] ∧
    on_click defaultConfig "text" 4 = [Command.nextCmd] :=
  ⟨((c9_click_routing defaultConfig "next" 1).1 Command.nextCmd rfl).1 rfl,
   ((c9_click_routing defaultConfig "next" 2).1 Command.nextCmd rfl).2 (by decide),
   (c9_click_routing defaultConfig "text" 4).2.2.1 Command.nextCmd (by decide)
     (fun c2 h => by
        cases c2 <;> simp [bindingOf, defaultConfig] at h ⊢)⟩

lemma isSome_map (f : String → String) (x : Option String) :
    (Option.map f x).isSome = x.isSome := by
  cases x <;> rfl

lemma lookupVal_isSome (v v' : Vals) (k : String) :
    (lookupVal v k).isSome = (lookupVal v' k).isSome := by
  unfold lookupVal
  split_ifs <;> rfl

lemma fmtGo_nil (v : Vals) : fmtGo v [] = some "" := by
  rw [fmtGo.eq_def]

lemma fmtGo_open_nil (v : Vals) : fmtGo v ['\x7b'] = none := by
  rw [fmtGo.eq_def]; simp

lemma fmtGo_open_open (v : Vals) (rest2 : List Char) :
    fmtGo v ('\x7b' :: '\x7b' :: rest2) =
      Option.map (fun s => "\x7b" ++ s) (fmtGo v rest2) := by
  rw [fmtGo.eq_def]; simp

lemma fmtGo_open_key (v : Vals) (c2 : Char) (rest2 : List Char) (h : ¬c2 = '\x7b') :
    fmtGo v ('\x7b' :: c2 :: rest2) = fmtKeyGo v [] (c2 :: rest2) := by
  rw [fmtGo.eq_def]; simp [h]

lemma fmtGo_close_nil (v : Vals) : fmtGo v ['\x7d'] = none := by
  rw [fmtGo.eq_def]; simp

lemma fmtGo_close_close (v : Vals) (rest2 : List Char) :
    fmtGo v ('\x7d' :: '\x7d' :: rest2) =
      Option.map (fun s => "\x7d" ++ s) (fmtGo v rest2) := by
  rw [fmtGo.eq_def]; simp

lemma fmtGo_close_other (v : Vals) (c2 : Char) (rest2 : List Char) (h : ¬c2 = '\x7d') :
    fmtGo v ('\x7d' :: c2 :: rest2) = none := by
  rw [fmtGo.eq_def]; simp [h]

lemma fmtGo_char (v : Vals) (c : Char) (rest : List Char)
    (hb : ¬c = '\x7b') (hd : ¬c = '\x7d') :
    fmtGo v (c :: rest) = Option.map (fun s => String.singleton c ++ s) (fmtGo v rest) := by
  rw [fmtGo.eq_def]; simp only [if_neg hb, if_neg hd]

lemma fmtKeyGo_nil (v : Vals) (acc : List Char) : fmtKeyGo v acc [] = none := by
  rw [fmtKeyGo.eq_def]

lemma fmtKeyGo_close (v : Vals) (acc rest : List Char) :
    fmtKeyGo v acc ('\x7d' :: rest) =
      (match lookupVal v (String.mk acc.reverse) with
       | none => none
       | some val => Option.map (fun s => val ++ s) (fmtGo v rest)) := by
  rw [fmtKeyGo.eq_def]; simp

lemma fmtKeyGo_char (v : Vals) (acc : List Char) (c : Char) (rest : List Char)
    (h : ¬c = '\x7d') :
    fmtKeyGo v acc (c :: rest) = fmtKeyGo v (c :: acc) rest := by
  rw [fmtKeyGo.eq_def]; simp [h]

lemma fmt_indep (v v' : Vals) : ∀ n : Nat,
    (∀ cs : List Char, cs.length ≤ n →
      (fmtGo v cs).isSome = (fmtGo v' cs).isSome) ∧
    (∀ acc cs : List Char, cs.length ≤ n →
      (fmtKeyGo v acc cs).isSome = (fmtKeyGo v' acc cs).isSome) := by
  intro n
  induction n with
  | zero =>
    constructor
    · intro cs h
      have : cs = [] := List.eq_nil_of_length_eq_zero (Nat.le_zero.mp h)
      subst this; rfl
    · intro acc cs h
      have : cs = [] := List.eq_nil_of_length_eq_zero (Nat.le_zero.mp h)
      subst this; rw [fmtKeyGo_nil, fmtKeyGo_nil]
  | succ n ih =>
    obtain ⟨ihGo, ihKey⟩ := ih
    constructor
    · intro cs hlen
      cases cs with
      | nil => rfl
      | cons c rest =>
        simp only [List.length_cons, Nat.succ_le_succ_iff] at hlen
        by_cases hb : c = '\x7b'
        · subst hb
          cases rest with
          | nil => rw [fmtGo_open_nil, fmtGo_open_nil]
          | cons c2 rest2 =>
            by_cases hb2 : c2 = '\x7b'
            · subst hb2
              rw [fmtGo_open_open, fmtGo_open_open, isSome_map, isSome_map]
              exact ihGo rest2 (by simp at hlen; omega)
            · rw [fmtGo_open_key v c2 rest2 hb2, fmtGo_open_key v' c2 rest2 hb2]
              exact ihKey [] (c2 :: rest2) hlen
        · by_cases hd : c = '\x7d'
          · subst hd
            cases rest with
            | nil => rw [fmtGo_close_nil, fmtGo_close_nil]
            | cons c2 rest2 =>
              by_cases hd2 : c2 = '\x7d'
              · subst hd2
                rw [fmtGo_close_close, fmtGo_close_close, isSome_map, isSome_map]
                exact ihGo rest2 (by simp at hlen; omega)
              · rw [fmtGo_close_other v c2 rest2 hd2, fmtGo_close_other v' c2 rest2 hd2]
          · rw [fmtGo_char v c rest hb hd, fmtGo_char v' c rest hb hd,
              isSome_map, isSome_map]
            exact ihGo rest hlen
    · intro acc cs hlen
      cases cs with
      | nil => rw [fmtKeyGo_nil, fmtKeyGo_nil]
      | cons c rest =>
        simp only [List.length_cons, Nat.succ_le_succ_iff] at hlen
        by_cases hd : c = '\x7d'
        · subst hd
          rw [fmtKeyGo_close, fmtKeyGo_close]
          have hl := lookupVal_isSome v v' (String.mk acc.reverse)
          cases hv : lookupVal v (String.mk acc.reverse) with
          | none =>
            rw [hv] at hl
            cases hv' : lookupVal v' (String.mk acc.reverse) with
            | none => simp
            | some val' => rw [hv'] at hl; simp at hl
          | some val =>
            rw [hv] at hl
            cases hv' : lookupVal v' (String.mk acc.reverse) with
            | none => rw [hv'] at hl; simp at hl
            | some val' =>
              simp only [isSome_map]
              exact ihGo rest hlen
        · rw [fmtKeyGo_char v acc c rest hd, fmtKeyGo_char v' acc c rest hd]
          exact ihKey (c :: acc) rest hlen

lemma str_ne_empty_of_data (s : String) (h : s.data ≠ []) : s ≠ "" := by
  intro he
  exact h (by rw [he])

lemma append_left_ne_empty (a b : String) (h : a.data ≠ []) : a ++ b ≠ "" := by
  apply str_ne_empty_of_data
  rw [str_data_append]
  intro hc
  exact h (List.append_eq_nil.mp hc).1

lemma lookup_fallback_ne (k val : String)
    (h : lookupVal fallbackVals k = some val) : val.data ≠ [] := by
  unfold lookupVal at h
  split_ifs at h <;> (cases h; decide)

lemma fmt_nonempty : ∀ n : Nat,
    (∀ cs : List Char, cs.length ≤ n → cs ≠ [] →
      ∀ s, fmtGo fallbackVals cs = some s → s ≠ "") ∧
    (∀ acc cs : List Char, cs.length ≤ n →
      ∀ s, fmtKeyGo fallbackVals acc cs = some s → s ≠ "") := by
  intro n
  induction n with
  | zero =>
    constructor
    · intro cs h hne
      exact absurd (List.eq_nil_of_length_eq_zero (Nat.le_zero.mp h)) hne
    · intro acc cs h s hs
      have : cs = [] := List.eq_nil_of_length_eq_zero (Nat.le_zero.mp h)
      subst this
      rw [fmtKeyGo_nil] at hs
      cases hs
  | succ n ih =>
    obtain ⟨ihGo, ihKey⟩ := ih
    constructor
    · intro cs hlen hne s hs
      cases cs with
      | nil => exact absurd rfl hne
      | cons c rest =>
        simp only [List.length_cons, Nat.succ_le_succ_iff] at hlen
        by_cases hb : c = '\x7b'
        · subst hb
          cases rest with
          | nil => rw [fmtGo_open_nil] at hs; cases hs
          | cons c2 rest2 =>
            by_cases hb2 : c2 = '\x7b'
            · subst hb2
              rw [fmtGo_open_open] at hs
              cases hin : fmtGo fallbackVals rest2 with
              | none => rw [hin] at hs; cases hs
              | some s2 =>
                rw [hin] at hs
                simp at hs
                subst hs
                exact append_left_ne_empty _ _ (by decide)
            · rw [fmtGo_open_key _ _ _ hb2] at hs
              exact ihKey [] (c2 :: rest2) hlen s hs
        · by_cases hd : c = '\x7d'
          · subst hd
            cases rest with
            | nil => rw [fmtGo_close_nil] at hs; cases hs
            | cons c2 rest2 =>
              by_cases hd2 : c2 = '\x7d'
              · subst hd2
                rw [fmtGo_close_close] at hs
                cases hin : fmtGo fallbackVals rest2 with
                | none => rw [hin] at hs; cases hs
                | some s2 =>
                  rw [hin] at hs
                  simp at hs
                  subst hs
                  exact append_left_ne_empty _ _ (by decide)
              · rw [fmtGo_close_other _ _ _ hd2] at hs; cases hs
          · rw [fmtGo_char _ _ _ hb hd] at hs
            cases hin : fmtGo fallbackVals rest with
            | none => rw [hin] at hs; cases hs
            | some s2 =>
              rw [hin] at hs
              simp at hs
              subst hs
              exact append_left_ne_empty _ _ (by simp [String.singleton])
    · intro acc cs hlen s hs
      cases cs with
      | nil => rw [fmtKeyGo_nil] at hs; cases hs
      | cons c rest =>
        simp only [List.length_cons, Nat.succ_le_succ_iff] at hlen
        by_cases hd : c = '\x7d'
        · subst hd
          rw [fmtKeyGo_close] at hs
          cases hv : lookupVal fallbackVals (String.mk acc.reverse) with
          | none => rw [hv] at hs; cases hs
          | some val =>
            rw [hv] at hs
            cases hin : fmtGo fallbackVals rest with
            | none => rw [hin] at hs; cases hs
            | some s2 =>
              rw [hin] at hs
              simp at hs
              subst hs
              exact append_left_ne_empty _ _ (lookup_fallback_ne _ _ hv)
        · rw [fmtKeyGo_char _ _ _ _ hd] at hs
          exact ihKey (c :: acc) rest hlen s hs

lemma tryBlock_identity_err (cfg : Config) (i3 : I3Config) (p : Player) (e : Unit)
    (he : p.Identity = Except.error e) : tryBlock cfg i3 p = baseState i3 := by
  cases p with
  | mk pid ppb ppos pmd =>
    simp only at he
    subst he
    rfl

lemma tryBlock_color_bad (cfg : Config) (i3 : I3Config) (p : Player)
    (hfail : tryFails p = true) : (tryBlock cfg i3 p).color = i3.color_bad := by
  cases p with
  | mk pid ppb ppos pmd =>
    cases pid with
    | error e => simp [tryBlock, baseState]
    | ok ident =>
      cases ppb with
      | error e => simp [tryBlock, baseState]
      | ok pbs =>
        cases ppos with
        | error e => simp [tryBlock]
        | ok posn =>
          cases pmd with
          | error e => simp [tryBlock]
          | ok md =>
            simp only [tryFails] at hfail
            by_cases hsz : md.size = 0
            · simp [hsz] at hfail
            · simp only [hsz, if_neg hsz] at hfail
              cases hu : md.url with
              | none => simp [tryBlock, hsz, hu]
              | some u =>
                rw [hu] at hfail
                cases ha : md.artist with
                | none => rw [ha] at hfail; simp at hfail
                | some l =>
                  cases l with
                  | nil => simp [tryBlock, hsz, hu, ha]
                  | cons a t => rw [ha] at hfail; simp at hfail

/-- C5: whenever any player query fails during `_get_text` (and the two
configured templates are well-formed), rendering still produces a value:
the text formats with the fallback placeholders for everything not yet
read, and the color degrades to the host's "bad" color.  When the very
first query (`Identity`) fails, every placeholder substitutes its defined
fallback (`Unknown` for text fields, the distinct `-:--` for the time
fields) and the produced text is non-empty whenever the template is. -/
theorem c5_render_degrades_not_raises (cfg : Config) (i3 : I3Config) (p : Player)
    (hfail : tryFails p = true)
    (hok : templateOk cfg.format = true) (hoks : templateOk cfg.format_stream = true) :
    ∃ s, get_text cfg i3 p = some (s, i3.color_bad) ∧
      (∀ e : Unit, p.Identity = Except.error e →
        formatTemplate cfg.format fallbackVals = some s ∧
        UNKNOWN ≠ UNKNOWN_TIME ∧
        (cfg.format ≠ "" → s ≠ "")) := by
  have hsome : (formatTemplate (chosenFormat cfg i3 p) (getVals cfg i3 p)).isSome = true := by
    unfold chosenFormat
    by_cases hstr : (tryBlock cfg i3 p).is_stream
    · rw [if_pos hstr]
      unfold templateOk at hoks
      unfold formatTemplate at hoks ⊢
      rw [(fmt_indep (getVals cfg i3 p) fallbackVals cfg.format_stream.data.length).1 _ le_rfl]
      exact hoks
    · rw [if_neg hstr]
      unfold templateOk at hok
      unfold formatTemplate at hok ⊢
      rw [(fmt_indep (getVals cfg i3 p) fallbackVals cfg.format.data.length).1 _ le_rfl]
      exact hok
  obtain ⟨text, htext⟩ := Option.isSome_iff_exists.mp hsome
  refine ⟨text, ?_, ?_⟩
  · unfold get_text
    rw [htext, tryBlock_color_bad cfg i3 p hfail]
  · intro e he
    have hbase := tryBlock_identity_err cfg i3 p e he
    have hcf : chosenFormat cfg i3 p = cfg.format := by
      unfold chosenFormat
      rw [hbase]
      rfl
    have hgv : getVals cfg i3 p = fallbackVals := by
      unfold getVals
      rw [hbase]
      rfl
    rw [hcf, hgv] at htext
    refine ⟨htext, by decide, ?_⟩
    intro hne
    refine (fmt_nonempty cfg.format.data.length).1 cfg.format.data le_rfl ?_ text htext
    intro h0
    exact hne (by conv_lhs => rw [← str_mk_data cfg.format, h0])

/-- A player none of whose queries answers (total failure). -/
def failingPlayer : Player :=
  { Identity := Except.error (), PlaybackStatus := Except.error (),
    Position := Except.error (), Metadata := Except.error () }

theorem c5_witness :
    ∃ s, get_text defaultConfig defI3 failingPlayer = some (s, defI3.color_bad) ∧
      (∀ e : Unit, failingPlayer.Identity = Except.error e →
        formatTemplate defaultConfig.format fallbackVals = some s ∧
        UNKNOWN ≠ UNKNOWN_TIME ∧
        (defaultConfig.format ≠ "" → s ≠ "")) :=
  c5_render_degrades_not_raises defaultConfig defI3 failingPlayer rfl
    (by decide) (by decide)

lemma buttons_foldl_aux (cfg : Config) (st : String) :
    ∀ (l : List String) (acc : List Entry), (∀ e ∈ acc, e.index ≠ "text") →
    ∀ e ∈ l.foldl
      (fun response button =>
        if button = "play" then
          response ++ [{ full_text := " " ++ st ++ " ", color := "#CCCCCC", index := "play" }]
        else if button = "stop" then
          response ++ [{ full_text := " " ++ cfg.state_stop ++ " ", color := "#CCCCCC", index := "stop" }]
        else if button = "next" then
          response ++ [{ full_text := " " ++ cfg.state_next ++ " ", color := "#CCCCCC", index := "next" }]
        else if button = "previous" then
          response ++ [{ full_text := " " ++ cfg.state_previous ++ " ", color := "#CCCCCC", index := "previous" }]
        else response) acc, e.index ≠ "text"
  | [], acc, hacc => hacc
  | b :: rest, acc, hacc => by
    simp only [List.foldl_cons]
    refine buttons_foldl_aux cfg st rest _ ?_
    intro e he
    split_ifs at he <;>
      first
      | exact hacc e he
      | (rcases List.mem_append.mp he with hmem | hmem
         · exact hacc e hmem
         · simp only [List.mem_singleton] at hmem
           subst hmem
           simp)

lemma buttons_entries (cfg : Config) (p : Player) (btns : List Entry)
    (h : get_response_buttons cfg p = Except.ok btns) :
    ∀ e ∈ btns, e.index ≠ "text" := by
  unfold get_response_buttons at h
  cases hpb : p.PlaybackStatus with
  | error e => rw [hpb] at h; cases h
  | ok pbs =>
    rw [hpb] at h
    simp only [Except.ok.injEq] at h
    subst h
    exact buttons_foldl_aux cfg _ _ [] (by simp)

/-- C10: every payload a refresh returns decomposes as button entries on
one side of a single `text` entry: the control glyphs sit entirely before
the text when `buttons_control` is `left`, entirely after it when
`right`, and in every other case (no player selected, no recognised
button name, `buttons_control` unset) the composite is the text entry
alone; glyph entries are present only when a player was selected and
`_get_response_buttons` produced a non-empty list. -/
theorem c10_composite_shape (tr : Except Unit Nat) (cfg : Config) (bus : Bus)
    (i3 : I3Config) (resp : Response)
    (h : mpris tr cfg bus i3 = Except.ok resp) :
    ∃ pre post t, resp.composite = pre ++ t :: post ∧ t.index = "text" ∧
      (∀ e ∈ pre, e.index ≠ "text") ∧ (∀ e ∈ post, e.index ≠ "text") ∧
      (pre = [] ∨ post = []) ∧
      (cfg.buttons_control = some "left" → post = []) ∧
      (cfg.buttons_control = some "right" → pre = []) ∧
      (cfg.buttons_control ≠ some "left" → cfg.buttons_control ≠ some "right" →
        pre = [] ∧ post = []) ∧
      (pre ++ post ≠ [] →
        ∃ running p btns, detect_running_player cfg bus = Except.ok running ∧
          get_player bus running = some p ∧
          get_response_buttons cfg p = Except.ok btns ∧ btns ≠ [] ∧
          pre ++ post = btns) := by
  unfold mpris at h
  cases tr with
  | error e => cases h
  | ok t =>
    dsimp only at h
    cases hdet : detect_running_player cfg bus with
    | error e => rw [hdet] at h; cases h
    | ok running =>
      rw [hdet] at h
      dsimp only at h
      cases hgp : get_player bus running with
      | none =>
        rw [hgp] at h
        simp only [Except.ok.injEq] at h
        subst h
        refine ⟨[], [], ⟨cfg.format_none, i3.color_bad, "text"⟩, rfl, rfl,
          by simp, by simp, Or.inl rfl,
          fun _ => rfl, fun _ => rfl, fun _ _ => ⟨rfl, rfl⟩, fun hc => absurd rfl hc⟩
      | some p =>
        rw [hgp] at h
        dsimp only at h
        cases hgt : get_text cfg i3 p with
        | none => rw [hgt] at h; cases h
        | some tc =>
          rw [hgt] at h
          dsimp only at h
          cases hbtn : get_response_buttons cfg p with
          | error e => rw [hbtn] at h; cases h
          | ok btns =>
            rw [hbtn] at h
            dsimp only at h
            by_cases hb0 : btns = []
            · rw [if_pos hb0,
                if_neg (by simp : ¬(none : Option String) = some "left"),
                if_neg (by simp : ¬(none : Option String) = some "right")] at h
              simp only [Except.ok.injEq] at h
              subst h
              refine ⟨[], [], ⟨tc.1, tc.2, "text"⟩, rfl, rfl,
                by simp, by simp, Or.inl rfl,
                fun _ => rfl, fun _ => rfl, fun _ _ => ⟨rfl, rfl⟩,
                fun hc => absurd rfl hc⟩
            · rw [if_neg hb0] at h
              have hne := buttons_entries cfg p btns hbtn
              by_cases hL : cfg.buttons_control = some "left"
              · rw [if_pos hL] at h
                simp only [Except.ok.injEq] at h
                subst h
                refine ⟨btns, [], ⟨tc.1, tc.2, "text"⟩, by simp, rfl,
                  hne, by simp, Or.inr rfl, fun _ => rfl, ?_, ?_, ?_⟩
                · intro hR; rw [hL] at hR; simp at hR
                · intro hg _; exact absurd hL hg
                · intro _
                  exact ⟨running, p, btns, rfl, hgp, hbtn, hb0, by simp⟩
              · rw [if_neg hL] at h
                by_cases hR : cfg.buttons_control = some "right"
                · rw [if_pos hR] at h
                  simp only [Except.ok.injEq] at h
                  subst h
                  refine ⟨[], btns, ⟨tc.1, tc.2, "text"⟩, by simp, rfl,
                    by simp, hne, Or.inl rfl, ?_, fun _ => rfl, ?_, ?_⟩
                  · intro hL2; rw [hR] at hL2; simp at hL2
                  · intro _ hg; exact absurd hR hg
                  · intro _
                    exact ⟨running, p, btns, rfl, hgp, hbtn, hb0, by simp⟩
                · rw [if_neg hR] at h
                  simp only [Except.ok.injEq] at h
                  subst h
                  refine ⟨[], [], ⟨tc.1, tc.2, "text"⟩, rfl, rfl,
                    by simp, by simp, Or.inl rfl,
                    fun _ => rfl, fun _ => rfl, fun _ _ => ⟨rfl, rfl⟩,
                    fun hc => absurd rfl hc⟩

/-- Default configuration with control glyphs on the left. -/
def c10cfg : Config := { defaultConfig with buttons_control := some "left" }

/-- The payload of a refresh against `busMpd` under `c10cfg` with the
time source answering 0. -/
def c10resp : Response :=
  { cached_until := 5,
    composite :=
      [{ full_text := " « ", color := "#CCCCCC", index := "previous" },
       { full_text := " ▮▮ ", color := "#CCCCCC", index := "play" },
       { full_text := " » ", color := "#CCCCCC", index := "next" },
       { full_text := "▶ Unknown", color := "#00FF00", index := "text" }] }


theorem c10_witness :
    ∃ pre post t, c10resp.composite = pre ++ t :: post ∧ t.index = "text" ∧
      (∀ e ∈ pre, e.index ≠ "text") ∧ (∀ e ∈ post, e.index ≠ "text") ∧
      (pre = [] ∨ post = []) ∧
      (c10cfg.buttons_control = some "left" → post = []) ∧
      (c10cfg.buttons_control = some "right" → pre = []) ∧
      (c10cfg.buttons_control ≠ some "left" → c10cfg.buttons_control ≠ some "right" →
        pre = [] ∧ post = []) ∧
      (pre ++ post ≠ [] →
        ∃ running p btns, detect_running_player c10cfg busMpd = Except.ok running ∧
          get_player busMpd running = some p ∧
          get_response_buttons c10cfg p = Except.ok btns ∧ btns ≠ [] ∧
          pre ++ post = btns) :=
  c10_composite_shape (Except.ok 0) c10cfg busMpd defI3 c10resp (by decide)

/-- Configuration whose stream template is just the title. -/
def c5cexCfg : Config := { defaultConfig with format_stream := "{title}" }

/-- Metadata with a non-file url, an extension-like title, and an EMPTY
artist list (so `metadata.get('xesam:artist')[0]` raises IndexError). -/
def c5cexMeta : Metadata :=
  { url := some "http://x", title := some ".mp3", artist := some [] }

/-- A player whose metadata is `c5cexMeta`; the artist access fails after
url and title were already read. -/
def c5cexPlayer : Player :=
  { Identity := Except.ok "P", PlaybackStatus := Except.ok "Playing",
    Position := Except.ok 0, Metadata := Except.ok c5cexMeta }

/-- C5, counterexample: a failure while querying metadata (IndexError on
an empty artist list) does mark the bad color, but the produced text is
the EMPTY string: `is_stream` was already True, the already-read title
`.mp3` is stripped to `""` by the extension rule, and the stream template
`\x7btitle\x7d` renders nothing — refuting the claim's "a non-empty text
string is still produced" for general query failures. -/
theorem c5_counterexample :
    tryFails c5cexPlayer = true ∧
    c5cexCfg.format_stream ≠ "" ∧
    get_text c5cexCfg defI3 c5cexPlayer = some ("", defI3.color_bad) := by
  refine ⟨rfl, by decide, by decide⟩
